import Mathlib

/-!
Verification of the SDL2_mixer binding (src/src/sdl2/mixer/mod.rs): a shallow
embedding of the effect-callback marshalling and ownership-lifecycle subsystem,
the global hook slots, the init flag check and the resource wrappers, with
theorems settling the specified properties.

Native engine behaviour (SDL2_mixer itself) is not in the repository; where a
function's result depends on the engine, the engine's reply is an explicit
argument (its return code, its current error text, its decoder table), so each
embedded function is the binding's code evaluated against an arbitrary engine
reply.
-/

namespace Sdl2Mixer

/-! ## Init flags (mod.rs lines 122-188)

The bitflags declaration defines InitFlag over the MIX_INIT constants
FLAC = 0x1, MOD = 0x2, MODPLUG = 0x4, MP3 = 0x8, OGG = 0x10,
FLUIDSYNTH = 0x20 (values of the SDL2_mixer headers mirrored by the ffi
module, which is not under src). Flag sets are Nat bitmasks. -/

def INIT_FLAC : Nat := 0x1
def INIT_MOD : Nat := 0x2
def INIT_MODPLUG : Nat := 0x4
def INIT_MP3 : Nat := 0x8
def INIT_OGG : Nat := 0x10
def INIT_FLUIDSYNTH : Nat := 0x20

/-- Union of all defined InitFlag bits; from_bits_truncate masks with it. -/
def INIT_ALL : Nat := 0x3f

/-- Embedding of InitFlag::from_bits_truncate: keep only the defined bits. -/
def from_bits_truncate (bits : Nat) : Nat := bits.land INIT_ALL

/-- Embedding of InitFlag::contains (bitflags): self holds every bit of other. -/
def flagContains (self other : Nat) : Bool := self.land other == other

/-- Embedding of InitFlag::intersects (bitflags): self and other share a bit. -/
def flagIntersects (self other : Nat) : Bool := self.land other != 0

/-- Embedding of the ToString impl for InitFlag (mod.rs lines 131-154):
concatenates a name for each contained flag, each followed by a space. -/
def initFlagToString (f : Nat) : String :=
  (if flagContains f INIT_FLAC then "INIT_FLAC " else "")
    ++ (if flagContains f INIT_MOD then "INIT_MOD " else "")
    ++ (if flagContains f INIT_MODPLUG then "INIT_MODPLUG " else "")
    ++ (if flagContains f INIT_MP3 then "INIT_MP3 " else "")
    ++ (if flagContains f INIT_OGG then "INIT_OGG " else "")
    ++ (if flagContains f INIT_FLUIDSYNTH then "INIT_FLUIDSYNTH " else "")

/-- Embedding of init (mod.rs lines 170-188). Arguments supplied by the
engine: engineRet is the value Mix_Init returned, currentError the error
text the engine holds when init inspects it. The code masks the return to
the defined flags, then tests flags.intersects(return_flags): on success
Ok, otherwise, when the engine error text is empty, it synthesizes
"Could not init: " plus the names of return_flags XOR flags, and returns
the error text. -/
def init (flags engineRet : Nat) (currentError : String) : Except String Unit :=
  let return_flags := from_bits_truncate engineRet
  if flagIntersects flags return_flags then
    Except.ok ()
  else
    let err :=
      if currentError = "" then
        "Could not init: " ++ initFlagToString (return_flags.xor flags)
      else currentError
    Except.error err

/-! ## register_effect (mod.rs lines 640-664) and its failure path

register_effect boxes the caller transform, transmutes the box into the raw
user-data argument of Mix_RegisterEffect, and inspects the return code.
When the engine reports 0 (failure) the function returns Err(get_error())
without reconstituting the box: the raw pointer is discarded, the engine
performs no further processing of a failed registration (it never stores
the pointer nor invokes the done callback), so the boxed transform is
neither returned to the caller nor dropped. BoxFate records what became of
the box on each path. -/

inductive BoxFate where
  | handedToEngine
  | leaked
  | droppedLocally
  | returnedToCaller
deriving DecidableEq, Repr

/-- Embedding of Channel::register_effect: engineRet is the Mix_RegisterEffect
return code, currentError the engine error text; the result pairs the Rust
return value with the fate of the boxed transform. -/
def register_effect (engineRet : Int) (currentError : String) :
    Except String Unit × BoxFate :=
  if engineRet = 0 then (Except.error currentError, BoxFate.leaked)
  else (Except.ok (), BoxFate.handedToEngine)

/-! ## Effect lifecycle (mod.rs lines 382-404 and 640-664)

A successful register_effect hands the boxed transform to the engine as the
user-data token (one ownership transfer, line 657). The two trampolines it
registers are effectfunc_callback_marshall, which borrows the token for one
processing call, and effectdone_callback_marshall, which reconstitutes the
Box from the token and drops it — the only place that drops the box. The
engine contract (SDL2_mixer, spec section 5): for each successful
registration the done trampoline is invoked exactly once, at the earlier of
explicit unregistration or channel halt / channel reuse, and no trampoline
for that registration is invoked after it. The machine below tracks one
registration id through a trace of engine-visible events; an event sequence
the engine contract rules out (a done for a never-registered or
already-reclaimed token, a buffer tick after removal) makes the run reject
(none). -/

/-- Cause by which the engine removed an effect registration. -/
inductive RemovalCause where
  | explicitUnregister
  | channelHalt
  | channelReuse
deriving DecidableEq, Repr

/-- Observable events of the effect subsystem, each tagged with the
registration id it concerns. -/
inductive EffectEvent where
  | registerOk (id : Nat)
  | registerFail (id : Nat)
  | bufferTick (id : Nat)
  | doneInvoke (id : Nat) (cause : RemovalCause)
deriving DecidableEq, Repr

/-- Lifecycle state of the boxed transform of one registration. -/
inductive BoxState where
  | unregistered
  | engineOwned
  | destroyed
deriving DecidableEq, Repr

/-- Step of the lifecycle machine for the registration tracked as id:
registerOk transfers the box into the engine (register_effect success
path); doneInvoke is effectdone_callback_marshall rebuilding and dropping
the box; bufferTick is effectfunc_callback_marshall borrowing it, legal
only while the engine owns it. Events for other ids leave the state
unchanged. -/
def boxStep (id : Nat) (s : BoxState) : EffectEvent → Option BoxState
  | EffectEvent.registerOk i =>
      if i = id then
        if s = BoxState.unregistered then some BoxState.engineOwned else none
      else some s
  | EffectEvent.registerFail _ => some s
  | EffectEvent.bufferTick i =>
      if i = id then
        if s = BoxState.engineOwned then some s else none
      else some s
  | EffectEvent.doneInvoke i _ =>
      if i = id then
        if s = BoxState.engineOwned then some BoxState.destroyed else none
      else some s

/-- Run the lifecycle machine over a trace; none when the trace violates
the engine contract for the tracked registration. -/
def runBox (id : Nat) (s : BoxState) : List EffectEvent → Option BoxState
  | [] => some s
  | e :: tr =>
      match boxStep id s e with
      | none => none
      | some s2 => runBox id s2 tr

/-- Number of ownership transfers into the subsystem for id in the trace:
one per successful registration. -/
def transferCount (id : Nat) (tr : List EffectEvent) : Nat :=
  tr.countP fun e =>
    match e with
    | EffectEvent.registerOk i => i == id
    | _ => false

/-- Number of destructions of the boxed transform of id in the trace:
effectdone_callback_marshall drops the box on every invocation, so this
counts done invocations for id. -/
def destructionCount (id : Nat) (tr : List EffectEvent) : Nat :=
  tr.countP fun e =>
    match e with
    | EffectEvent.doneInvoke i _ => i == id
    | _ => false

/-- Transfers and destructions already accounted for by a lifecycle state. -/
def boxCounts : BoxState → Nat × Nat
  | BoxState.unregistered => (0, 0)
  | BoxState.engineOwned => (1, 0)
  | BoxState.destroyed => (1, 1)

/-! ## Buffer reinterpretation (mod.rs lines 382-395)

effectfunc_callback_marshall receives the raw stream pointer and its byte
length len, and builds the typed slice with
from_raw_parts_mut(stream, len / size_of SampleType): the element count is
the integer division of the byte length by the sample width, each element
covering the next sampleWidth bytes; bytes beyond
sampleWidth * (len / sampleWidth) are not part of any element. There is no
validation of len and no failure path in the function body. Streams are
byte lists, a typed element the list of bytes it covers. -/

/-- Consecutive elements of the typed slice: n elements of sampleWidth bytes
each, taken from the front of the stream. -/
def takeElems (sampleWidth : Nat) : Nat → List Nat → List (List Nat)
  | 0, _ => []
  | n + 1, bytes => bytes.take sampleWidth :: takeElems sampleWidth n (bytes.drop sampleWidth)

/-- Typed slice that effectfunc_callback_marshall presents to the transform
callback: length / sampleWidth elements over the stream bytes. -/
def effectfunc_slice (sampleWidth : Nat) (stream : List Nat) : List (List Nat) :=
  takeElems sampleWidth (stream.length / sampleWidth) stream

/-- Embedding of effectfunc_callback_marshall as observed at the callback
boundary: some slice means the callback is invoked with that slice, none
would mean the trampoline aborts the process instead. The function body has
no assertion or any other failure path, so every input produces some. -/
def effectfunc_callback_marshall (sampleWidth : Nat) (stream : List Nat) :
    Option (List (List Nat)) :=
  some (effectfunc_slice sampleWidth stream)

/-- Length of takeElems is its element-count argument. -/
theorem takeElems_length (w n : Nat) (bytes : List Nat) :
    (takeElems w n bytes).length = n := by
  induction n generalizing bytes with
  | zero => rfl
  | succ k ih => simpa [takeElems] using ih (bytes.drop w)

/-- Accounting for one legal step of the lifecycle machine: the counts the
single event contributes match the movement of boxCounts. -/
theorem boxStep_counts (id : Nat) (s s2 : BoxState) (e : EffectEvent)
    (he : boxStep id s e = some s2) :
    transferCount id [e] + (boxCounts s).1 = (boxCounts s2).1 ∧
    destructionCount id [e] + (boxCounts s).2 = (boxCounts s2).2 := by
  cases e with
  | registerOk i =>
      by_cases hi : i = id
      · subst hi
        simp only [boxStep, if_pos rfl] at he
        by_cases hs : s = BoxState.unregistered
        · rw [if_pos hs] at he
          cases he
          subst hs
          simp [transferCount, destructionCount, boxCounts]
        · rw [if_neg hs] at he; cases he
      · simp only [boxStep, if_neg hi] at he
        cases he
        simp [transferCount, destructionCount, hi]
  | registerFail i =>
      simp only [boxStep] at he
      cases he
      simp [transferCount, destructionCount]
  | bufferTick i =>
      have hs2 : s2 = s := by
        by_cases hi : i = id
        · simp only [boxStep, if_pos hi] at he
          by_cases hs : s = BoxState.engineOwned
          · rw [if_pos hs] at he; cases he; rfl
          · rw [if_neg hs] at he; cases he
        · simp only [boxStep, if_neg hi] at he; cases he; rfl
      subst hs2
      simp [transferCount, destructionCount]
  | doneInvoke i c =>
      by_cases hi : i = id
      · subst hi
        simp only [boxStep, if_pos rfl] at he
        by_cases hs : s = BoxState.engineOwned
        · rw [if_pos hs] at he
          cases he
          subst hs
          simp [transferCount, destructionCount, boxCounts]
        · rw [if_neg hs] at he; cases he
      · simp only [boxStep, if_neg hi] at he
        cases he
        simp [transferCount, destructionCount, hi]

/-- Accounting for a whole run of the lifecycle machine: the counts of the
trace move boxCounts from the initial to the final state. -/
theorem runBox_counts (id : Nat) (tr : List EffectEvent) :
    ∀ s s', runBox id s tr = some s' →
      transferCount id tr + (boxCounts s).1 = (boxCounts s').1 ∧
      destructionCount id tr + (boxCounts s).2 = (boxCounts s').2 := by
  induction tr with
  | nil =>
      intro s s' h
      simp only [runBox, Option.some.injEq] at h
      subst h
      simp [transferCount, destructionCount]
  | cons e rest ih =>
      intro s s' h
      simp only [runBox] at h
      rcases he : boxStep id s e with _ | s2
      · rw [he] at h; cases h
      · rw [he] at h
        obtain ⟨ht, hd⟩ := ih s2 s' h
        obtain ⟨ht1, hd1⟩ := boxStep_counts id s s2 e he
        have hTc : transferCount id (e :: rest) =
            transferCount id rest + transferCount id [e] := by
          simp [transferCount, List.countP_cons]
        have hDc : destructionCount id (e :: rest) =
            destructionCount id rest + destructionCount id [e] := by
          simp [destructionCount, List.countP_cons]
        omega

/-! ## Global hook slots (mod.rs lines 346-372 and 797-806, 985-999)

Two process-wide slots: channel_finished_callback holding an optional
fn(Channel), music_finished_hook holding an optional fn(). Callbacks are
identified by Nat; a trampoline invocation is embedded as the list of user
callback calls it performs, so the empty list is a no-op and the codomain
has no error case, exactly as the extern fns, which return unit on every
path. -/

/-- Embedding of c_channel_finished_callback (lines 348-355): reads the slot;
empty slot does nothing, otherwise calls the installed callback with the
channel number. -/
def c_channel_finished_callback (slot : Option Nat) (ch : Int) : List (Nat × Int) :=
  match slot with
  | none => []
  | some cb => [(cb, ch)]

/-- Slot effect of set_channel_finished (lines 358-363): the slot is
overwritten with the new callback, whatever it held. -/
def set_channel_finished_slot (f : Nat) (_slot : Option Nat) : Option Nat :=
  some f

/-- Slot effect of unset_channel_finished (lines 367-372): the slot is
cleared. -/
def unset_channel_finished_slot (_slot : Option Nat) : Option Nat :=
  none

/-- Embedding of c_music_finished_hook (lines 799-806): reads the slot; empty
slot does nothing, otherwise calls the installed callback. -/
def c_music_finished_hook (slot : Option Nat) : List Nat :=
  match slot with
  | none => []
  | some f => [f]

/-- Slot effect of Music::hook_finished (lines 985-990). -/
def hook_finished_slot (f : Nat) (_slot : Option Nat) : Option Nat :=
  some f

/-- Slot effect of Music::unhook_finished (lines 993-999). -/
def unhook_finished_slot (_slot : Option Nat) : Option Nat :=
  none

/-! ## Hook set/unset ordering (mod.rs lines 358-372 and 985-999)

Swapping a hook is two primitive actions: a write of the process-wide slot
and the native call telling the engine whether to route completion events
through the trampoline. The source order is transcribed per function; the
consistency predicate below is the property the ordering protects: whenever
routing is enabled, the slot is non-empty, so a trampoline the engine still
invokes never reads an empty slot that should hold a callback. -/

/-- Primitive actions of the hook set/unset bodies. -/
inductive HookAction where
  | engineRoute (enabled : Bool)
  | writeSlot (v : Option Nat)
deriving DecidableEq, Repr

/-- Observable state: whether the engine routes events to the trampoline, and
the process-wide slot. -/
structure HookState where
  routed : Bool
  slot : Option Nat
deriving DecidableEq, Repr

/-- Effect of one primitive action on the hook state. -/
def applyHookAction (s : HookState) : HookAction → HookState
  | HookAction.engineRoute b => { s with routed := b }
  | HookAction.writeSlot v => { s with slot := v }

/-- Action sequence of unset_channel_finished (lines 367-372):
Mix_ChannelFinished(None) first, slot cleared second. -/
def unset_channel_finished_actions : List HookAction :=
  [HookAction.engineRoute false, HookAction.writeSlot none]

/-- Action sequence of Music::unhook_finished (lines 993-999):
Mix_HookMusicFinished(None) first, slot cleared second. -/
def unhook_finished_actions : List HookAction :=
  [HookAction.engineRoute false, HookAction.writeSlot none]

/-- Action sequence of set_channel_finished (lines 358-363): slot written
first, Mix_ChannelFinished(Some(trampoline)) second. -/
def set_channel_finished_actions (f : Nat) : List HookAction :=
  [HookAction.writeSlot (some f), HookAction.engineRoute true]

/-- Action sequence of Music::hook_finished (lines 985-990): slot written
first, Mix_HookMusicFinished(Some(trampoline)) second. -/
def hook_finished_actions (f : Nat) : List HookAction :=
  [HookAction.writeSlot (some f), HookAction.engineRoute true]

/-- Consistency the ordering protects: routing enabled implies non-empty
slot. -/
def hookConsistent (s : HookState) : Bool :=
  if s.routed then s.slot.isSome else true

/-- Every state reached along an action sequence, the start included. -/
def hookStatesAlong (s : HookState) (acts : List HookAction) : List HookState :=
  List.scanl applyHookAction s acts

/-! ## Decoder queries (mod.rs lines 236-241 and 773-778)

Mix_GetChunkDecoder / Mix_GetMusicDecoder return a pointer to the decoder
name for an index within 0..count and null otherwise; the engine decoder
table is the list argument. The binding dereferences the returned pointer
unconditionally (CStr::from_ptr, then unwrap of the utf8 conversion) and
returns a bare String. The none result models the crash of the process on
the null-pointer path, which no Rust-level value is produced for. -/

/-- Embedding of get_chunk_decoder (lines 236-241): returns the decoder name
for an in-range index; an out-of-range index makes the engine return null
and the unconditional dereference crashes, modelled none. -/
def get_chunk_decoder (decoders : List String) (index : Int) : Option String :=
  if h : 0 ≤ index ∧ index.toNat < decoders.length then
    some (decoders.get ⟨index.toNat, h.2⟩)
  else none

/-- Embedding of get_music_decoder (lines 773-778), same shape as
get_chunk_decoder over the music decoder table. -/
def get_music_decoder (decoders : List String) (index : Int) : Option String :=
  if h : 0 ≤ index ∧ index.toNat < decoders.length then
    some (decoders.get ⟨index.toNat, h.2⟩)
  else none

/-! ## Resource wrappers (mod.rs lines 243-318, 531-543, 808-845)

Chunk and Music wrap a raw native handle (a Nat here) plus the owned flag.
Destruction is embedded as the list of native free calls the Drop impl
performs. Engine replies (load results, the currently playing chunk) are
Option Nat arguments, none for a null pointer. -/

/-- Native free calls a Drop impl can perform. -/
inductive NativeCall where
  | freeChunk (raw : Nat)
  | freeMusic (raw : Nat)
deriving DecidableEq, Repr

/-- Embedding of the Chunk wrapper (lines 244-248). -/
structure Chunk where
  raw : Nat
  owned : Bool
deriving DecidableEq, Repr

/-- Embedding of the Drop impl for Chunk (lines 250-256): Mix_FreeChunk on
the handle when owned, nothing otherwise. -/
def Chunk.dropCalls (c : Chunk) : List NativeCall :=
  if c.owned then [NativeCall.freeChunk c.raw] else []

/-- Embedding of the Music wrapper (lines 809-813). -/
structure Music where
  raw : Nat
  owned : Bool
deriving DecidableEq, Repr

/-- Embedding of the Drop impl for Music (lines 815-821): Mix_FreeMusic on
the handle when owned, nothing otherwise. -/
def Music.dropCalls (m : Music) : List NativeCall :=
  if m.owned then [NativeCall.freeMusic m.raw] else []

/-- Embedding of Channel::get_chunk (lines 531-543): engineChunk is the raw
pointer Mix_GetChunk returned (none for null); a non-null handle is wrapped
with owned = false. -/
def get_chunk (engineChunk : Option Nat) : Option Chunk :=
  match engineChunk with
  | none => none
  | some raw => some { raw := raw, owned := false }

/-- Embedding of Chunk::from_file and LoaderRWops::load_wav (lines 260-270
and 293-303): loadResult is the raw pointer the engine load returned (none
for null); a non-null handle is wrapped with owned = true, null surfaces
the engine error text. -/
def chunk_from_load (loadResult : Option Nat) (currentError : String) :
    Except String Chunk :=
  match loadResult with
  | none => Except.error currentError
  | some raw => Except.ok { raw := raw, owned := true }

/-- Embedding of Music::from_file and LoaderRWops::load_music (lines 306-316
and 832-845), same shape as chunk_from_load. -/
def music_from_load (loadResult : Option Nat) (currentError : String) :
    Except String Music :=
  match loadResult with
  | none => Except.error currentError
  | some raw => Except.ok { raw := raw, owned := true }

end Sdl2Mixer

namespace Sdl2Mixer

/-- C1: the claim says init must fail whenever the engine initialized only a
strict subset of the requested flags. The code comment (line 175) states the
intent, "Check if all init flags were set", but the test used is intersects.
At the failing input flags = INIT_FLAC or INIT_MOD or INIT_MP3 = 0x0b with
the engine initializing only 0x03 (a strict subset missing INIT_MP3), init
returns Ok, contradicting the claim and the code comment alike. -/
theorem init_partial_success_bug :
    from_bits_truncate 0x03 ≠ 0x0b ∧
    flagContains (from_bits_truncate 0x03) 0x0b = false ∧
    init 0x0b 0x03 "" = Except.ok () := by
  refine ⟨by decide, by decide, ?_⟩
  rfl

/-- C3: along every engine-contract-conforming event trace in which the
tracked registration ends destroyed, exactly one ownership transfer into
the subsystem occurred (the box handed to the engine at the successful
registration) and the boxed transform was destroyed exactly once (the one
done-trampoline invocation), whatever cause — explicit unregistration,
channel halt or channel reuse — triggered the removal. -/
theorem effect_box_destroyed_exactly_once (id : Nat) (tr : List EffectEvent)
    (hrun : runBox id BoxState.unregistered tr = some BoxState.destroyed) :
    transferCount id tr = 1 ∧ destructionCount id tr = 1 := by
  obtain ⟨h1, h2⟩ := runBox_counts id tr BoxState.unregistered BoxState.destroyed hrun
  simp only [boxCounts] at h1 h2
  omega

/-- Witness for C3: a concrete registration that is ticked once and then
removed by a channel halt transfers once and is destroyed once. -/
theorem effect_box_destroyed_exactly_once_witness :
    transferCount 0 [EffectEvent.registerOk 0, EffectEvent.bufferTick 0,
        EffectEvent.doneInvoke 0 RemovalCause.channelHalt] = 1 ∧
    destructionCount 0 [EffectEvent.registerOk 0, EffectEvent.bufferTick 0,
        EffectEvent.doneInvoke 0 RemovalCause.channelHalt] = 1 :=
  effect_box_destroyed_exactly_once 0
    [EffectEvent.registerOk 0, EffectEvent.bufferTick 0,
     EffectEvent.doneInvoke 0 RemovalCause.channelHalt] (by decide)

/-- C4: the typed slice the per-buffer trampoline presents to the transform
has exactly rawByteLength / sampleWidth elements (integer division), and in
particular 16-bit samples over a 2048-byte raw buffer give exactly 1024
elements. -/
theorem effectfunc_slice_length_div :
    (∀ sampleWidth : Nat, ∀ stream : List Nat,
        (effectfunc_slice sampleWidth stream).length = stream.length / sampleWidth) ∧
    (∀ stream : List Nat, stream.length = 2048 →
        (effectfunc_slice 2 stream).length = 1024) := by
  constructor
  · intro w s
    simp [effectfunc_slice, takeElems_length]
  · intro s h
    simp [effectfunc_slice, takeElems_length, h]

/-- Witness for C4: a concrete 2048-byte stream of 16-bit samples yields a
1024-element slice. -/
theorem effectfunc_slice_length_div_witness :
    (effectfunc_slice 2 (List.replicate 2048 0)).length = 1024 :=
  effectfunc_slice_length_div.2 (List.replicate 2048 0) (by rw [List.length_replicate])

/-- C5 counterexample: the claim says a byte length that is no multiple of
the sample width is detected by a validation check and aborts the process;
the trampoline body has no such check — at width 2 and the 3-byte stream
[1, 2, 3] it does not abort (none) but silently presents the truncated
one-element slice [[1, 2]]. -/
theorem effectfunc_no_validation_counterexample :
    0 < 2 ∧ ([1, 2, 3] : List Nat).length % 2 ≠ 0 ∧
    effectfunc_callback_marshall 2 [1, 2, 3] ≠ none ∧
    effectfunc_callback_marshall 2 [1, 2, 3] = some [[1, 2]] := by
  decide

/-- C5 amended: the per-buffer trampoline performs no length validation and
never terminates the process; when the byte length is no multiple of the
sample width it silently truncates, presenting rawByteLength / sampleWidth
elements and leaving the trailing remainder bytes outside every element. -/
theorem effectfunc_truncates (sampleWidth : Nat) (stream : List Nat)
    (hw : 0 < sampleWidth) (hmod : stream.length % sampleWidth ≠ 0) :
    effectfunc_callback_marshall sampleWidth stream ≠ none ∧
    (effectfunc_slice sampleWidth stream).length = stream.length / sampleWidth ∧
    sampleWidth * (stream.length / sampleWidth) < stream.length := by
  refine ⟨by simp [effectfunc_callback_marshall], ?_, ?_⟩
  · simp [effectfunc_slice, takeElems_length]
  · have hdm := Nat.div_add_mod stream.length sampleWidth
    have hlt : stream.length % sampleWidth > 0 := Nat.pos_of_ne_zero hmod
    omega

/-- Witness for C5: the misaligned 3-byte stream at width 2 is truncated to
one element without any abort. -/
theorem effectfunc_truncates_witness :
    effectfunc_callback_marshall 2 [1, 2, 3] ≠ none ∧
    (effectfunc_slice 2 ([1, 2, 3] : List Nat)).length = ([1, 2, 3] : List Nat).length / 2 ∧
    2 * (([1, 2, 3] : List Nat).length / 2) < ([1, 2, 3] : List Nat).length :=
  effectfunc_truncates 2 [1, 2, 3] (by decide) (by decide)

/-- C2: the claim says a failed registration must return ownership of the
transform to the caller or drop it. In the code the box is transmuted into
the engine call and, on return code 0, the function returns the error
without reclaiming the pointer: the transform is leaked, neither returned
nor dropped. -/
theorem register_effect_failure_leak :
    register_effect 0 "registration refused" =
      (Except.error "registration refused", BoxFate.leaked) ∧
    BoxFate.leaked ≠ BoxFate.droppedLocally ∧
    BoxFate.leaked ≠ BoxFate.returnedToCaller := by
  exact ⟨rfl, by decide, by decide⟩

/-- C6: a trampoline invocation dispatches to exactly the most recently
installed callback: after set f then set g the trigger invokes g and never
f; after set f then unset it invokes neither; an empty slot is a no-op,
never an error — for the channel-finished and the music-finished slot
alike. -/
theorem hook_dispatch_latest (f g : Nat) (ch : Int) (s0 m0 : Option Nat)
    (hfg : f ≠ g) :
    c_channel_finished_callback
        (set_channel_finished_slot g (set_channel_finished_slot f s0)) ch = [(g, ch)] ∧
    (∀ x ∈ c_channel_finished_callback
        (set_channel_finished_slot g (set_channel_finished_slot f s0)) ch, x.1 ≠ f) ∧
    c_channel_finished_callback
        (unset_channel_finished_slot (set_channel_finished_slot f s0)) ch = [] ∧
    c_channel_finished_callback none ch = [] ∧
    c_music_finished_hook (hook_finished_slot g (hook_finished_slot f m0)) = [g] ∧
    (∀ y ∈ c_music_finished_hook (hook_finished_slot g (hook_finished_slot f m0)), y ≠ f) ∧
    c_music_finished_hook (unhook_finished_slot (hook_finished_slot f m0)) = [] ∧
    c_music_finished_hook none = [] := by
  refine ⟨rfl, ?_, rfl, rfl, rfl, ?_, rfl, rfl⟩
  · intro x hx
    simp only [c_channel_finished_callback, set_channel_finished_slot,
      List.mem_singleton] at hx
    subst hx
    exact fun h => hfg h.symm
  · intro y hy
    simp only [c_music_finished_hook, hook_finished_slot,
      List.mem_singleton] at hy
    subst hy
    exact fun h => hfg h.symm

/-- Witness for C6: concrete callbacks 1 and 2 on channel 3, starting from
an empty channel slot and a music slot holding 9. -/
theorem hook_dispatch_latest_witness :
    c_channel_finished_callback
        (set_channel_finished_slot 2 (set_channel_finished_slot 1 none)) 3 = [(2, 3)] ∧
    (∀ x ∈ c_channel_finished_callback
        (set_channel_finished_slot 2 (set_channel_finished_slot 1 none)) 3, x.1 ≠ 1) ∧
    c_channel_finished_callback
        (unset_channel_finished_slot (set_channel_finished_slot 1 none)) 3 = [] ∧
    c_channel_finished_callback none 3 = [] ∧
    c_music_finished_hook (hook_finished_slot 2 (hook_finished_slot 1 (some 9))) = [2] ∧
    (∀ y ∈ c_music_finished_hook (hook_finished_slot 2 (hook_finished_slot 1 (some 9))), y ≠ 1) ∧
    c_music_finished_hook (unhook_finished_slot (hook_finished_slot 1 (some 9))) = [] ∧
    c_music_finished_hook none = [] :=
  hook_dispatch_latest 1 2 3 none (some 9) (by decide)

/-- C7: in unset_channel_finished and in Music::unhook_finished the native
deregistration call strictly precedes the clearing of the slot, and along
the whole sequence, from any state in which routing implies a non-empty
slot, every intermediate state keeps that consistency — a still-routed
engine never observes a cleared slot. -/
theorem unset_hook_order (s : HookState) (hs : hookConsistent s = true) :
    (∃ i j : Nat, i < j ∧
      unset_channel_finished_actions[i]? = some (HookAction.engineRoute false) ∧
      unset_channel_finished_actions[j]? = some (HookAction.writeSlot none)) ∧
    (∀ s2 ∈ hookStatesAlong s unset_channel_finished_actions, hookConsistent s2 = true) ∧
    (∃ i j : Nat, i < j ∧
      unhook_finished_actions[i]? = some (HookAction.engineRoute false) ∧
      unhook_finished_actions[j]? = some (HookAction.writeSlot none)) ∧
    (∀ s2 ∈ hookStatesAlong s unhook_finished_actions, hookConsistent s2 = true) := by
  have hexp : hookStatesAlong s unset_channel_finished_actions =
      [s, { s with routed := false }, { routed := false, slot := none }] := rfl
  have hexp2 : hookStatesAlong s unhook_finished_actions =
      [s, { s with routed := false }, { routed := false, slot := none }] := rfl
  have hsafe : ∀ s2 ∈ [s, { s with routed := false },
      ({ routed := false, slot := none } : HookState)], hookConsistent s2 = true := by
    intro s2 hmem
    rcases List.mem_cons.1 hmem with h | hmem
    · rw [h]; exact hs
    rcases List.mem_cons.1 hmem with h | hmem
    · rw [h]; rfl
    rcases List.mem_cons.1 hmem with h | hmem
    · rw [h]; rfl
    · cases hmem
  refine ⟨⟨0, 1, by decide, rfl, rfl⟩, ?_, ⟨0, 1, by decide, rfl, rfl⟩, ?_⟩
  · rw [hexp]; exact hsafe
  · rw [hexp2]; exact hsafe

/-- Witness for C7: the consistent state routed with callback 5 installed. -/
theorem unset_hook_order_witness :
    (∃ i j : Nat, i < j ∧
      unset_channel_finished_actions[i]? = some (HookAction.engineRoute false) ∧
      unset_channel_finished_actions[j]? = some (HookAction.writeSlot none)) ∧
    (∀ s2 ∈ hookStatesAlong (HookState.mk true (some 5)) unset_channel_finished_actions,
      hookConsistent s2 = true) ∧
    (∃ i j : Nat, i < j ∧
      unhook_finished_actions[i]? = some (HookAction.engineRoute false) ∧
      unhook_finished_actions[j]? = some (HookAction.writeSlot none)) ∧
    (∀ s2 ∈ hookStatesAlong (HookState.mk true (some 5)) unhook_finished_actions,
      hookConsistent s2 = true) :=
  unset_hook_order (HookState.mk true (some 5)) (by decide)

/-- C10: in set_channel_finished and in Music::hook_finished the slot is
written with the new callback strictly before the engine is told to route
events through the trampoline — the mirror ordering of unset — and along
the whole sequence, from any consistent state, every intermediate state
keeps routing implying a non-empty slot, so once routing is enabled the
slot already holds the just-installed callback. -/
theorem set_hook_order (f : Nat) (s : HookState) (hs : hookConsistent s = true) :
    (∃ i j : Nat, i < j ∧
      (set_channel_finished_actions f)[i]? = some (HookAction.writeSlot (some f)) ∧
      (set_channel_finished_actions f)[j]? = some (HookAction.engineRoute true)) ∧
    (∀ s2 ∈ hookStatesAlong s (set_channel_finished_actions f), hookConsistent s2 = true) ∧
    (∃ i j : Nat, i < j ∧
      (hook_finished_actions f)[i]? = some (HookAction.writeSlot (some f)) ∧
      (hook_finished_actions f)[j]? = some (HookAction.engineRoute true)) ∧
    (∀ s2 ∈ hookStatesAlong s (hook_finished_actions f), hookConsistent s2 = true) := by
  have hexp : hookStatesAlong s (set_channel_finished_actions f) =
      [s, { s with slot := some f }, { routed := true, slot := some f }] := rfl
  have hexp2 : hookStatesAlong s (hook_finished_actions f) =
      [s, { s with slot := some f }, { routed := true, slot := some f }] := rfl
  have hsafe : ∀ s2 ∈ [s, { s with slot := some f },
      ({ routed := true, slot := some f } : HookState)], hookConsistent s2 = true := by
    intro s2 hmem
    rcases List.mem_cons.1 hmem with h | hmem
    · rw [h]; exact hs
    rcases List.mem_cons.1 hmem with h | hmem
    · rw [h]
      show (if s.routed then (some f).isSome else true) = true
      cases s.routed <;> rfl
    rcases List.mem_cons.1 hmem with h | hmem
    · rw [h]; rfl
    · cases hmem
  refine ⟨⟨0, 1, by decide, rfl, rfl⟩, ?_, ⟨0, 1, by decide, rfl, rfl⟩, ?_⟩
  · rw [hexp]; exact hsafe
  · rw [hexp2]; exact hsafe

/-- Witness for C10: installing callback 7 from the empty initial state. -/
theorem set_hook_order_witness :
    (∃ i j : Nat, i < j ∧
      (set_channel_finished_actions 7)[i]? = some (HookAction.writeSlot (some 7)) ∧
      (set_channel_finished_actions 7)[j]? = some (HookAction.engineRoute true)) ∧
    (∀ s2 ∈ hookStatesAlong (HookState.mk false none) (set_channel_finished_actions 7),
      hookConsistent s2 = true) ∧
    (∃ i j : Nat, i < j ∧
      (hook_finished_actions 7)[i]? = some (HookAction.writeSlot (some 7)) ∧
      (hook_finished_actions 7)[j]? = some (HookAction.engineRoute true)) ∧
    (∀ s2 ∈ hookStatesAlong (HookState.mk false none) (hook_finished_actions 7),
      hookConsistent s2 = true) :=
  set_hook_order 7 (HookState.mk false none) (by decide)

/-- C8 counterexample: the claim says no public operation panics on ordinary
misuse, for any i32 index passed to the decoder getters included; both
getters dereference the engine reply unconditionally, so an out-of-range
index crashes instead of producing a value — no String result exists for
index 5 of a one-entry table, nor for index -1. -/
theorem decoder_out_of_range_crash :
    (get_chunk_decoder ["WAVE"] 5).isSome = false ∧
    (get_music_decoder ["WAVE", "OGG"] (-1)).isSome = false := by
  decide

/-- C8 amended: get_chunk_decoder and get_music_decoder return a name
exactly for indices within the decoder table, and crash on any other index
rather than returning a failure result; the panic-free contract does not
extend to them. -/
theorem decoder_some_iff_in_range :
    (∀ (decoders : List String) (index : Int),
      (get_chunk_decoder decoders index).isSome = true ↔
        0 ≤ index ∧ index.toNat < decoders.length) ∧
    (∀ (decoders : List String) (index : Int),
      (get_music_decoder decoders index).isSome = true ↔
        0 ≤ index ∧ index.toNat < decoders.length) := by
  constructor
  · intro ds idx
    unfold get_chunk_decoder
    split <;> simp_all
  · intro ds idx
    unfold get_music_decoder
    split <;> simp_all

/-- C9: destruction of a Chunk or Music wrapper frees the native handle iff
the owned flag is set; a Chunk from Channel::get_chunk carries owned =
false and its destruction performs no native call, while the load
operations produce wrappers with owned = true. -/
theorem wrapper_free_iff_owned :
    (∀ c : Chunk, NativeCall.freeChunk c.raw ∈ c.dropCalls ↔ c.owned = true) ∧
    (∀ m : Music, NativeCall.freeMusic m.raw ∈ m.dropCalls ↔ m.owned = true) ∧
    (∀ (e : Option Nat) (c : Chunk), get_chunk e = some c →
      c.owned = false ∧ c.dropCalls = []) ∧
    (∀ (r : Option Nat) (err : String) (c : Chunk), chunk_from_load r err = Except.ok c →
      c.owned = true ∧ c.dropCalls = [NativeCall.freeChunk c.raw]) ∧
    (∀ (r : Option Nat) (err : String) (m : Music), music_from_load r err = Except.ok m →
      m.owned = true ∧ m.dropCalls = [NativeCall.freeMusic m.raw]) := by
  refine ⟨?_, ?_, ?_, ?_, ?_⟩
  · intro c
    rcases c with ⟨raw, owned⟩
    cases owned <;> simp [Chunk.dropCalls]
  · intro m
    rcases m with ⟨raw, owned⟩
    cases owned <;> simp [Music.dropCalls]
  · intro e c h
    cases e with
    | none => cases h
    | some raw =>
        simp only [get_chunk, Option.some.injEq] at h
        subst h
        simp [Chunk.dropCalls]
  · intro r err c h
    cases r with
    | none => cases h
    | some raw =>
        simp only [chunk_from_load, Except.ok.injEq] at h
        subst h
        simp [Chunk.dropCalls]
  · intro r err m h
    cases r with
    | none => cases h
    | some raw =>
        simp only [music_from_load, Except.ok.injEq] at h
        subst h
        simp [Music.dropCalls]

/-- Witness for C9: the queried chunk 7 is non-owning and frees nothing; the
loaded chunk 9 and music 4 are owning and free their handle. -/
theorem wrapper_free_iff_owned_witness :
    ((Chunk.mk 7 false).owned = false ∧ (Chunk.mk 7 false).dropCalls = []) ∧
    ((Chunk.mk 9 true).owned = true ∧
      (Chunk.mk 9 true).dropCalls = [NativeCall.freeChunk 9]) ∧
    ((Music.mk 4 true).owned = true ∧
      (Music.mk 4 true).dropCalls = [NativeCall.freeMusic 4]) :=
  ⟨wrapper_free_iff_owned.2.2.1 (some 7) (Chunk.mk 7 false) rfl,
   wrapper_free_iff_owned.2.2.2.1 (some 9) "load error" (Chunk.mk 9 true) rfl,
   wrapper_free_iff_owned.2.2.2.2 (some 4) "load error" (Music.mk 4 true) rfl⟩

end Sdl2Mixer
